import Mathlib

/-!
# A shallow embedding of the multi-provider request gateway

This file embeds the gateway of `src/aero-service/main.py`: the TTL
response cache (`_cache_get` / `_cache_set`), the throttle
(`_respect_openai_rl`), the retry loop of `_post_json`, the provider
strategies (`_call_openai`, `_call_gemini`, `_call_tavily`), the
dispatcher (`call_selected_provider`) and the `/api/model-research`
endpoint (`model_research`), and proves the claimed properties.

Modelling conventions:
* monotonic clock readings are rationals (seconds);
* `asyncio`/thread concurrency is modelled by the serialized order in
  which the lock-protected critical section of `_respect_openai_rl`
  runs: each acquisition is observed as its two `time.monotonic()`
  readings, constrained by clock monotonicity and by `asyncio.sleep`
  suspending for at least the requested duration;
* the network is an oracle giving the outcome of each attempted POST
  and the value drawn by `random.uniform(0, 1.5)` for each attempt;
* a Python exception escaping a function is an `Except.error`.
-/

namespace AeroGateway

/-- Monotonic clock readings, in seconds. -/
abbrev Time := ℚ

/-- `_RATE_WINDOW_SEC = 4.0` (main.py line 164). -/
def RATE_WINDOW_SEC : Time := 4

/-- `_RESP_TTL = 60.0` (main.py line 166). -/
def RESP_TTL : Time := 60

/-- `max_retries = 5` inside `_post_json._send` (main.py line 196). -/
def maxRetries : Nat := 5

/-- The normalized prompt key: `prompt.strip()[:1000]` (main.py lines
169, 180) — whitespace stripped from both ends, then the first 1000
characters (Python slices strings by code point). -/
def fingerprint (prompt : String) : String :=
  ((((prompt.toList.dropWhile Char.isWhitespace).reverse.dropWhile
      Char.isWhitespace).reverse).take 1000).asString

/-- A key of `_RESP_CACHE`: `(provider, prompt.strip()[:1000])`. -/
abbrev CacheKey := String × String

/-- `_RESP_CACHE`: a dict from keys to `(timestamp, text)`, modelled as an
association list holding at most one binding per key (insertion erases the
old binding, as dict assignment overwrites it). -/
abbrev Cache := List (CacheKey × (Time × String))

/-- Dict lookup in `_RESP_CACHE` (`_RESP_CACHE.get(key)`). -/
def cacheFind : Cache → CacheKey → Option (Time × String)
  | [], _ => none
  | (k, v) :: es, key => if k = key then some v else cacheFind es key

/-- Dict removal (`_RESP_CACHE.pop(key, None)`). -/
def cacheErase : Cache → CacheKey → Cache
  | [], _ => []
  | (k, v) :: es, key =>
      if k = key then cacheErase es key else (k, v) :: cacheErase es key

/-- Dict assignment (`_RESP_CACHE[key] = value`), overwriting any old binding. -/
def cacheInsert (c : Cache) (k : CacheKey) (v : Time × String) : Cache :=
  (k, v) :: cacheErase c k

/-- `_cache_get(provider, prompt)` at monotonic time `now` (main.py lines
168-177).  Returns the looked-up text (`None` on a miss or a stale entry)
together with the cache after the side effect of popping a stale entry. -/
def cacheGet (c : Cache) (now : Time) (provider prompt : String) :
    Option String × Cache :=
  let key : CacheKey := (provider, fingerprint prompt)
  match cacheFind c key with
  | none => (none, c)
  | some (ts, text) =>
      if RESP_TTL < now - ts then (none, cacheErase c key)
      else (some text, c)

/-- `_cache_set(provider, prompt, text)` at monotonic time `now` (main.py
lines 179-181). -/
def cacheSet (c : Cache) (now : Time) (provider prompt text : String) : Cache :=
  cacheInsert c (provider, fingerprint prompt) (now, text)

/-- Python truthiness of the `Optional[str]` returned by `_cache_get`:
`None` and the empty string are falsy (`if cached:` in main.py line 221). -/
def pyTruthy : Option String → Bool
  | none => false
  | some s => !(s == "")

/-- Python `x or default` on an `Optional[str]`: `None` and `""` give the
default. -/
def pyOrStr (t : Option String) (d : String) : String :=
  match t with
  | none => d
  | some s => if s = "" then d else s

/-! ## The rate limiter `_respect_openai_rl` (main.py lines 183-190)

The critical section under `_OPENAI_LOCK` reads the clock (`tEnter`),
sleeps the positive part of `_RATE_WINDOW_SEC - (now - _last_openai_call)`,
reads the clock again (`tExit`) and stores it into `_last_openai_call`.
An `AcquireObs` records the two clock readings of one such serialized
critical section; `ValidAcquire` states what the runtime guarantees of a
monotonic clock and of `asyncio.sleep` impose on them. -/

/-- The wait `_respect_openai_rl` computes from the shared baseline `last`
and the entry clock reading `now`. -/
def rlWait (last now : Time) : Time := RATE_WINDOW_SEC - (now - last)

/-- The two `time.monotonic()` readings of one lock-protected run of
`_respect_openai_rl`. -/
structure AcquireObs where
  tEnter : Time
  tExit : Time
deriving DecidableEq

/-- The baseline `_last_openai_call` reserved by the acquisition: its second
clock reading. -/
def acquireStep (_last : Time) (o : AcquireObs) : Time := o.tExit

/-- What the runtime guarantees of one acquisition against baseline `last`:
the clock is monotone across the critical section, and when the computed
wait is positive `asyncio.sleep(wait)` suspends for at least `wait`. -/
def ValidAcquire (last : Time) (o : AcquireObs) : Prop :=
  o.tEnter ≤ o.tExit ∧
  (0 < rlWait last o.tEnter → o.tEnter + rlWait last o.tEnter ≤ o.tExit)

instance (last : Time) (o : AcquireObs) : Decidable (ValidAcquire last o) :=
  inferInstanceAs (Decidable (_ ∧ _))

/-- The baselines successively stored into `_last_openai_call` by a
serialized sequence of acquisitions (the lock admits them one at a time). -/
def runAcquires (last : Time) : List AcquireObs → List Time
  | [] => []
  | o :: os => acquireStep last o :: runAcquires (acquireStep last o) os

/-- Every acquisition of the trace satisfies `ValidAcquire` against the
baseline left by its predecessor. -/
def ValidTrace (last : Time) : List AcquireObs → Prop
  | [] => True
  | o :: os => ValidAcquire last o ∧ ValidTrace (acquireStep last o) os

instance (last : Time) (tr : List AcquireObs) : Decidable (ValidTrace last tr) := by
  induction tr generalizing last with
  | nil => exact inferInstanceAs (Decidable True)
  | cons o os ih => exact @instDecidableAnd _ _ _ (ih (acquireStep last o))

/-! ## The retry loop of `_post_json` (main.py lines 193-212) -/

/-- The parsed JSON body of a 2xx OpenAI response, abstracted to the one
path the code reads: `content` is the value of
`data["choices"][0]["message"]["content"]` when every step of the path is
present, `none` when some step is missing (each `.get` default then makes
the extraction produce `""`). -/
structure OpenAIBody where
  content : Option String
deriving DecidableEq

/-- `data.get("choices", [{}])[0].get("message", {}).get("content", "") or
"No response."` (main.py line 245). -/
def extractMessage (b : OpenAIBody) : String :=
  pyOrStr b.content "No response."

/-- The outcome of one attempted `requests.post`: a 2xx response with a
parsed JSON body, an HTTP error status raised by `raise_for_status`, or any
other failure (connection error, timeout, malformed body). -/
inductive NetOutcome
  | success (body : OpenAIBody)
  | httpError (status : Nat)
  | netError (msg : String)
deriving DecidableEq

/-- An exception escaping `_post_json`. -/
inductive SendError
  | httpError (status : Nat)
  | netError (msg : String)
deriving DecidableEq

/-- The environment of one `_post_json` call: the outcome of each attempt
and the value `random.uniform(0, 1.5)` draws for each attempt. -/
structure RetryEnv where
  outcome : Nat → NetOutcome
  jitter : Nat → Time

/-- `wait_time = (2 ** attempt) + random.uniform(0, 1.5)` (main.py line 204). -/
def backoff (env : RetryEnv) (n : Nat) : Time := 2 ^ n + env.jitter n

/-- What one `_post_json` run did: its result (`.ok (some body)` a returned
JSON body, `.ok none` the loop falling through — unreachable with
`maxRetries = 5` —, `.error` a raised exception), the backoff sleeps it
performed in order, and how many POSTs it issued. -/
structure SendTrace where
  result : Except SendError (Option OpenAIBody)
  sleeps : List Time
  posts : Nat

/-- The `for attempt in range(max_retries)` loop of `_send`, entered at
`attempt` with `remaining` iterations left.  A 429 sleeps
`backoff env attempt` and then either re-raises (when
`attempt == max_retries - 1`) or moves to the next attempt; any other
failure raises at once; falling off the loop returns Python `None`. -/
def sendLoop (env : RetryEnv) : Nat → Nat → SendTrace
  | _, 0 => ⟨.ok none, [], 0⟩
  | attempt, remaining + 1 =>
      match env.outcome attempt with
      | .success body => ⟨.ok (some body), [], 1⟩
      | .httpError status =>
          if status = 429 then
            if attempt = maxRetries - 1 then
              ⟨.error (.httpError 429), [backoff env attempt], 1⟩
            else
              let t := sendLoop env (attempt + 1) remaining
              ⟨t.result, backoff env attempt :: t.sleeps, t.posts + 1⟩
          else ⟨.error (.httpError status), [], 1⟩
      | .netError msg => ⟨.error (.netError msg), [], 1⟩

/-- `_post_json` (main.py lines 193-212): the loop started at attempt 0. -/
def postJson (env : RetryEnv) : SendTrace := sendLoop env 0 maxRetries

/-! ## Envelopes and the provider strategies (main.py lines 215-292) -/

/-- The `raw` dict a strategy passes to `_format_provider_response`:
`{"cached": True}` on a cache hit, `{"rate_limited": True}` on the degraded
path, the provider's parsed JSON on an OpenAI success,
`{"gemini_response": True}` on a Gemini success. -/
inductive Raw
  | cachedFlag
  | rateLimitedFlag
  | openaiBody (b : OpenAIBody)
  | geminiFlag
deriving DecidableEq

/-- The response dict.  `ok`, `summary`, `provider` and `raw` are
`{"ok": ..., "data": {"summary": ..., "provider": ..., "raw": ...}}` as
built by `_format_provider_response` (`raw = none` models a `data` dict
with no `"raw"` key, as in the fallback branch of `model_research`);
`topProvider` models an extra top-level `"provider"` key on the outer dict,
absent except when `_call_tavily` assigns `result["provider"] = "tavily"`. -/
structure Envelope where
  ok : Bool
  summary : String
  provider : String
  raw : Option Raw
  topProvider : Option String := none
deriving DecidableEq

/-- `_format_provider_response(provider, summary, raw)` (main.py lines
215-216): always `ok=True`, with `provider` and `raw` inside `data`. -/
def formatProviderResponse (provider summary : String) (raw : Option Raw) :
    Envelope :=
  { ok := true, summary := summary, provider := provider, raw := raw }

/-- The module-level mutable state the strategies share: `_RESP_CACHE` and
the single `_last_openai_call` baseline (there is one lock and one
timestamp; `_call_gemini` uses the same `_respect_openai_rl`). -/
structure GatewayState where
  cache : Cache
  lastOpenaiCall : Time
deriving DecidableEq

/-- The environment of one `_call_openai` run: the clock reading of its
cache lookup, the observation of its `_respect_openai_rl` acquisition, the
network/jitter oracle of its `_post_json`, and the clock reading of its
`_cache_set`. -/
structure CallEnv where
  tCacheGet : Time
  acq : AcquireObs
  retry : RetryEnv
  tCacheSet : Time

/-- What one strategy call did: its result (`.error` is a Python exception
escaping the strategy), the shared state it leaves behind, how many
outbound network calls it issued, and its backoff sleeps. -/
structure CallResult where
  result : Except String Envelope
  state : GatewayState
  posts : Nat
  sleeps : List Time

/-- `str(e)` for the `AttributeError` raised by `OPENAI_API_KEY.strip()`
when the key is `None` (main.py line 225, outside the `try`). -/
def attributeErrorMsg : String := "AttributeError: NoneType object has no attribute strip"

/-- The fixed degraded-success text of main.py lines 251 and 267. -/
def apologyText : String := "I'm at capacity right now. Please try again in a few seconds."

/-- `_call_openai(prompt)` (main.py lines 219-251) with
`OPENAI_API_KEY = key`.  A truthy cache hit returns at once with
`{"cached": True}` and no network call.  Otherwise a `None` key raises
`AttributeError` while building the headers, before the `try` — the
exception escapes the strategy.  Otherwise the `try` block acquires the
rate limiter, runs `_post_json`, and on a returned body extracts the
message, stores it in the cache and returns it; any exception inside the
`try` (exhausted retries, any other network failure, or `_post_json`
returning `None`, whose `.get` would raise) becomes the apology envelope
with `{"rate_limited": True}`. -/
def callOpenai (key : Option String) (env : CallEnv) (st : GatewayState)
    (prompt : String) : CallResult :=
  let res := cacheGet st.cache env.tCacheGet "openai" prompt
  let st₁ : GatewayState := { st with cache := res.2 }
  if pyTruthy res.1 then
    ⟨.ok (formatProviderResponse "openai" (res.1.getD "") (some .cachedFlag)),
     st₁, 0, []⟩
  else
    match key with
    | none => ⟨.error attributeErrorMsg, st₁, 0, []⟩
    | some _ =>
        let last := acquireStep st₁.lastOpenaiCall env.acq
        let tr := postJson env.retry
        match tr.result with
        | .ok (some body) =>
            let msg := extractMessage body
            ⟨.ok (formatProviderResponse "openai" msg (some (.openaiBody body))),
             ⟨cacheSet st₁.cache env.tCacheSet "openai" prompt msg, last⟩,
             tr.posts, tr.sleeps⟩
        | .ok none =>
            ⟨.ok (formatProviderResponse "openai" apologyText (some .rateLimitedFlag)),
             ⟨st₁.cache, last⟩, tr.posts, tr.sleeps⟩
        | .error _ =>
            ⟨.ok (formatProviderResponse "openai" apologyText (some .rateLimitedFlag)),
             ⟨st₁.cache, last⟩, tr.posts, tr.sleeps⟩

/-- The outcome of `gemini_model.generate_content(prompt)`: its `.text`
attribute (possibly `None`), or a raised exception. -/
inductive GeminiOutcome
  | success (text : Option String)
  | failure (msg : String)

/-- The environment of one `_call_gemini` run. -/
structure GeminiEnv where
  tCacheGet : Time
  acq : AcquireObs
  outcome : GeminiOutcome
  tCacheSet : Time

/-- `_call_gemini(prompt)` (main.py lines 254-267).  Note it awaits the
same `_respect_openai_rl` — the single shared limiter — and caches under
the `"gemini"` key; its `try` converts every failure into the apology
envelope with `{"rate_limited": True}`. -/
def callGemini (env : GeminiEnv) (st : GatewayState) (prompt : String) :
    CallResult :=
  let res := cacheGet st.cache env.tCacheGet "gemini" prompt
  let st₁ : GatewayState := { st with cache := res.2 }
  if pyTruthy res.1 then
    ⟨.ok (formatProviderResponse "gemini" (res.1.getD "") (some .cachedFlag)),
     st₁, 0, []⟩
  else
    let last := acquireStep st₁.lastOpenaiCall env.acq
    match env.outcome with
    | .success text =>
        let msg := pyOrStr text "No response."
        ⟨.ok (formatProviderResponse "gemini" msg (some .geminiFlag)),
         ⟨cacheSet st₁.cache env.tCacheSet "gemini" prompt msg, last⟩, 1, []⟩
    | .failure _ =>
        ⟨.ok (formatProviderResponse "gemini" apologyText (some .rateLimitedFlag)),
         ⟨st₁.cache, last⟩, 1, []⟩

/-- `result["provider"] = "tavily"`: sets the top-level `"provider"` key of
the outer dict (not `result["data"]["provider"]`). -/
def setTopProvider (p : String) (e : Envelope) : Envelope :=
  { e with topProvider := some p }

/-- `_call_tavily(prompt)` (main.py lines 270-276): runs `_call_openai` and
adds a top-level `"provider": "tavily"` key to whatever dict it returned;
an exception from `_call_openai` propagates unchanged. -/
def callTavily (key : Option String) (env : CallEnv) (st : GatewayState)
    (prompt : String) : CallResult :=
  let r := callOpenai key env st prompt
  { r with result := r.result.map (setTopProvider "tavily") }

/-- `call_selected_provider(provider, prompt)` (main.py lines 279-292):
string dispatch, any unknown identifier falling through to `_call_openai`. -/
def callSelectedProvider (key : Option String) (envO : CallEnv)
    (envG : GeminiEnv) (st : GatewayState) (provider prompt : String) :
    CallResult :=
  if provider = "gemini" then callGemini envG st prompt
  else if provider = "openai" then callOpenai key envO st prompt
  else if provider = "tavily" then callTavily key envO st prompt
  else callOpenai key envO st prompt

/-- What the `/api/model-research` endpoint hands back to the HTTP layer. -/
structure ResearchResult where
  envelope : Envelope
  state : GatewayState
  posts : Nat

/-- `model_research(req)` (main.py lines 295-314): resolves
`req.provider or "openai"`, calls the selected provider, and converts any
exception into the fallback `{"ok": True, "data": {"summary": "Error
calling ...", "provider": ...}}` envelope (no `"raw"` key). -/
def modelResearch (key : Option String) (envO : CallEnv) (envG : GeminiEnv)
    (st : GatewayState) (reqProvider : Option String) (prompt : String) :
    ResearchResult :=
  let provider := pyOrStr reqProvider "openai"
  let r := callSelectedProvider key envO envG st provider prompt
  match r.result with
  | .ok e => ⟨e, r.state, r.posts⟩
  | .error msg =>
      ⟨{ ok := true,
         summary := "Error calling " ++ pyOrStr reqProvider "model" ++ ": " ++ msg,
         provider := pyOrStr reqProvider "openai",
         raw := none }, r.state, r.posts⟩

/-! ## Helper lemmas -/

/-- A run of the loop whose attempts `attempt ≤ k < K` are all rate
limited and whose attempt `K` returns a body: it returns that body after
one backoff sleep per rate-limited attempt. -/
lemma sendLoop_pre429_success (env : RetryEnv) (body : OpenAIBody) (K : Nat)
    (hK : K < maxRetries) (hsucc : env.outcome K = .success body) :
    ∀ remaining attempt, attempt + remaining = maxRetries → attempt ≤ K →
      (∀ k, attempt ≤ k → k < K → env.outcome k = .httpError 429) →
      sendLoop env attempt remaining =
        ⟨.ok (some body), (List.range' attempt (K - attempt)).map (backoff env),
         K - attempt + 1⟩ := by
  intro remaining
  induction remaining with
  | zero => intro attempt hsum hle _; omega
  | succ r ih =>
      intro attempt hsum hle hpre
      rcases Nat.eq_or_lt_of_le hle with heq | hlt
      · subst heq
        simp [sendLoop, hsucc]
      · have h429 := hpre attempt le_rfl hlt
        have hne : ¬ attempt = maxRetries - 1 := by omega
        have hrec := ih (attempt + 1) (by omega) (by omega)
          (fun k hk1 hk2 => hpre k (by omega) hk2)
        have hrange : K - attempt = (K - (attempt + 1)) + 1 := by omega
        simp only [sendLoop, h429, eq_self_iff_true, if_true, if_neg hne, hrec, hrange,
          List.range'_succ, List.map_cons]

/-- A run of the loop whose attempts `attempt ≤ k < K` are all rate
limited and whose attempt `K < maxRetries` fails in a way that is not a
429: the failure is raised from attempt `K` itself, with no backoff sleep
for it and no further attempt. -/
lemma sendLoop_pre429_fail (env : RetryEnv) (e : SendError) (K : Nat)
    (hK : K < maxRetries)
    (hfail : env.outcome K = .httpError 429 → False)
    (herr : match env.outcome K with
            | .success _ => False
            | .httpError s => e = .httpError s
            | .netError m => e = .netError m) :
    ∀ remaining attempt, attempt + remaining = maxRetries → attempt ≤ K →
      (∀ k, attempt ≤ k → k < K → env.outcome k = .httpError 429) →
      sendLoop env attempt remaining =
        ⟨.error e, (List.range' attempt (K - attempt)).map (backoff env),
         K - attempt + 1⟩ := by
  intro remaining
  induction remaining with
  | zero => intro attempt hsum hle _; omega
  | succ r ih =>
      intro attempt hsum hle hpre
      rcases Nat.eq_or_lt_of_le hle with heq | hlt
      · subst heq
        rcases houtcome : env.outcome attempt with body | s | m
        · rw [houtcome] at herr
          cases herr
        · rw [houtcome] at herr hfail
          have hs : ¬ s = 429 := fun h => hfail (by rw [h])
          simp only at herr
          subst herr
          simp [sendLoop, houtcome, hs]
        · rw [houtcome] at herr
          simp only at herr
          subst herr
          simp [sendLoop, houtcome]
      · have h429 := hpre attempt le_rfl hlt
        have hne : ¬ attempt = maxRetries - 1 := by omega
        have hrec := ih (attempt + 1) (by omega) (by omega)
          (fun k hk1 hk2 => hpre k (by omega) hk2)
        have hrange : K - attempt = (K - (attempt + 1)) + 1 := by omega
        simp only [sendLoop, h429, eq_self_iff_true, if_true, if_neg hne, hrec, hrange,
          List.range'_succ, List.map_cons]

/-- A run all of whose attempts are rate limited: the final 429 is
re-raised, after one backoff sleep for every one of the `maxRetries`
attempts — including the exhausting final one, which sleeps before
re-raising (main.py lines 204-209). -/
lemma sendLoop_all429 (env : RetryEnv)
    (h429 : ∀ n, env.outcome n = .httpError 429) :
    ∀ remaining attempt, attempt + remaining = maxRetries → remaining ≠ 0 →
      sendLoop env attempt remaining =
        ⟨.error (.httpError 429),
         (List.range' attempt remaining).map (backoff env), remaining⟩ := by
  intro remaining
  induction remaining with
  | zero => intro attempt _ hne; exact absurd rfl hne
  | succ r ih =>
      intro attempt hsum _
      rcases Nat.eq_zero_or_pos r with hr | hr
      · subst hr
        have hlast : attempt = maxRetries - 1 := by omega
        subst hlast
        simp [sendLoop, h429, List.range'_succ]
      · have hne : ¬ attempt = maxRetries - 1 := by omega
        have hrec := ih (attempt + 1) (by omega) (by omega)
        simp only [sendLoop, h429, eq_self_iff_true, if_true, if_neg hne, hrec,
          List.range'_succ, List.map_cons]

/-- `x or default` is never empty when the default is not: so the texts
main.py lines 245 and 262 produce (and cache) are never `""`, and
`if cached:` is true for every stored text. -/
lemma pyOrStr_ne_empty (t : Option String) (d : String) (hd : d ≠ "") :
    pyOrStr t d ≠ "" := by
  rcases t with _ | s
  · exact hd
  · by_cases hs : s = ""
    · simp only [pyOrStr, if_pos hs]
      exact hd
    · simp only [pyOrStr, if_neg hs]
      exact hs

/-- The extraction of main.py line 245 never yields the empty string: a
missing or empty `content` becomes `"No response."`. -/
lemma extractMessage_ne_empty (b : OpenAIBody) : extractMessage b ≠ "" :=
  pyOrStr_ne_empty b.content "No response." (by decide)

/-- A cache-missing `_call_openai` with a key present and a `_post_json`
run that returns a body: it extracts the message, caches it under
`("openai", fingerprint prompt)` at the `_cache_set` clock reading,
reserves the rate-limiter baseline, and returns the message. -/
lemma callOpenai_outbound_success (key : String) (env : CallEnv)
    (st : GatewayState) (prompt : String) (body : OpenAIBody)
    (hmiss : pyTruthy (cacheGet st.cache env.tCacheGet "openai" prompt).1 = false)
    (hsucc : (postJson env.retry).result = .ok (some body)) :
    callOpenai (some key) env st prompt =
      ⟨.ok (formatProviderResponse "openai" (extractMessage body)
              (some (.openaiBody body))),
       ⟨cacheSet (cacheGet st.cache env.tCacheGet "openai" prompt).2
          env.tCacheSet "openai" prompt (extractMessage body),
        acquireStep st.lastOpenaiCall env.acq⟩,
       (postJson env.retry).posts, (postJson env.retry).sleeps⟩ := by
  unfold callOpenai
  simp only [hmiss, Bool.false_eq_true, if_false, hsucc]

/-- A `_call_openai` whose cache lookup finds a fresh entry with non-empty
text: it returns the cached text with the `{"cached": True}` marker,
issues no network call, and leaves the state unchanged. -/
lemma callOpenai_hit (key : Option String) (env : CallEnv)
    (st : GatewayState) (prompt : String) (t0 : Time) (text : String)
    (hfind : cacheFind st.cache ("openai", fingerprint prompt) = some (t0, text))
    (hne : text ≠ "")
    (htime : env.tCacheGet - t0 ≤ RESP_TTL) :
    callOpenai key env st prompt =
      ⟨.ok (formatProviderResponse "openai" text (some .cachedFlag)),
       st, 0, []⟩ := by
  have hget : cacheGet st.cache env.tCacheGet "openai" prompt = (some text, st.cache) := by
    unfold cacheGet
    simp only [hfind]
    rw [if_neg (by exact not_lt.mpr htime)]
  unfold callOpenai
  rw [hget]
  simp [pyTruthy, hne]

/-- The envelope of every non-raising `_call_openai` result has
`ok = True`, `data.provider = "openai"` and no top-level provider key. -/
lemma callOpenai_ok_shape (key : Option String) (env : CallEnv)
    (st : GatewayState) (prompt : String) (e : Envelope)
    (h : (callOpenai key env st prompt).result = .ok e) :
    e.ok = true ∧ e.provider = "openai" ∧ e.topProvider = none := by
  simp only [callOpenai] at h
  split at h
  · simp only [Except.ok.injEq] at h
    subst h; exact ⟨rfl, rfl, rfl⟩
  · split at h
    · exact Except.noConfusion h
    · split at h <;>
        · simp only [Except.ok.injEq] at h
          subst h; exact ⟨rfl, rfl, rfl⟩

/-- The envelope of every non-raising `_call_gemini` result has
`ok = True`. -/
lemma callGemini_ok_shape (env : GeminiEnv) (st : GatewayState)
    (prompt : String) (e : Envelope)
    (h : (callGemini env st prompt).result = .ok e) : e.ok = true := by
  simp only [callGemini] at h
  split at h
  · simp only [Except.ok.injEq] at h
    subst h; rfl
  · split at h <;>
      · simp only [Except.ok.injEq] at h
        subst h; rfl

/-- A cache-missing `_call_openai` with a key present whose `_post_json`
raises: the exception is swallowed and the apology envelope with the
`{"rate_limited": True}` marker is returned. -/
lemma callOpenai_outbound_error (key : String) (env : CallEnv)
    (st : GatewayState) (prompt : String) (e : SendError)
    (hmiss : pyTruthy (cacheGet st.cache env.tCacheGet "openai" prompt).1 = false)
    (herr : (postJson env.retry).result = .error e) :
    callOpenai (some key) env st prompt =
      ⟨.ok (formatProviderResponse "openai" apologyText (some .rateLimitedFlag)),
       ⟨(cacheGet st.cache env.tCacheGet "openai" prompt).2,
        acquireStep st.lastOpenaiCall env.acq⟩,
       (postJson env.retry).posts, (postJson env.retry).sleeps⟩ := by
  unfold callOpenai
  simp only [hmiss, Bool.false_eq_true, if_false, herr]

/-- One valid acquisition moves the baseline at least `RATE_WINDOW_SEC`
past the previous one. -/
lemma acquire_spacing (last : Time) (o : AcquireObs) (h : ValidAcquire last o) :
    last + RATE_WINDOW_SEC ≤ acquireStep last o := by
  rcases h with ⟨hmono, hsleep⟩
  by_cases hw : 0 < rlWait last o.tEnter
  · have := hsleep hw
    unfold rlWait at this
    unfold acquireStep
    linarith
  · push_neg at hw
    unfold rlWait at hw
    unfold acquireStep
    linarith

/-- A cache-missing `_call_gemini` whose `generate_content` returns a
text: it computes `response.text or "No response."`, caches it under
`("gemini", fingerprint prompt)` at the `_cache_set` clock reading,
reserves the shared rate-limiter baseline, and returns the message. -/
lemma callGemini_outbound_success (env : GeminiEnv) (st : GatewayState)
    (prompt : String) (text : Option String)
    (hmiss : pyTruthy (cacheGet st.cache env.tCacheGet "gemini" prompt).1 = false)
    (hsucc : env.outcome = .success text) :
    callGemini env st prompt =
      ⟨.ok (formatProviderResponse "gemini" (pyOrStr text "No response.")
              (some .geminiFlag)),
       ⟨cacheSet (cacheGet st.cache env.tCacheGet "gemini" prompt).2
          env.tCacheSet "gemini" prompt (pyOrStr text "No response."),
        acquireStep st.lastOpenaiCall env.acq⟩, 1, []⟩ := by
  unfold callGemini
  simp only [hmiss, Bool.false_eq_true, if_false, hsucc]

/-- A `_call_gemini` whose cache lookup finds a fresh entry with
non-empty text: it returns the cached text with the `{"cached": True}`
marker, issues no network call, and leaves the state unchanged. -/
lemma callGemini_hit (env : GeminiEnv) (st : GatewayState) (prompt : String)
    (t0 : Time) (text : String)
    (hfind : cacheFind st.cache ("gemini", fingerprint prompt) = some (t0, text))
    (hne : text ≠ "")
    (htime : env.tCacheGet - t0 ≤ RESP_TTL) :
    callGemini env st prompt =
      ⟨.ok (formatProviderResponse "gemini" text (some .cachedFlag)),
       st, 0, []⟩ := by
  have hget : cacheGet st.cache env.tCacheGet "gemini" prompt =
      (some text, st.cache) := by
    unfold cacheGet
    simp only [hfind]
    rw [if_neg (not_lt.mpr htime)]
  unfold callGemini
  rw [hget]
  simp [pyTruthy, hne]

/-- An outbound-successful `_call_openai` followed, within TTL, by a
second `_call_openai` with the same fingerprint: the second call is
served the first call's text from the `("openai", fingerprint)` entry,
with the `{"cached": True}` marker, no outbound call and no state
change — whatever key the second call runs under. -/
lemma callOpenai_second_hit (key : String) (key₂ : Option String)
    (env₁ env₂ : CallEnv) (st : GatewayState) (prompt prompt₂ : String)
    (body : OpenAIBody)
    (hmiss : pyTruthy (cacheGet st.cache env₁.tCacheGet "openai" prompt).1 = false)
    (hsucc : (postJson env₁.retry).result = .ok (some body))
    (hfp : fingerprint prompt₂ = fingerprint prompt)
    (htime : env₂.tCacheGet - env₁.tCacheSet ≤ RESP_TTL) :
    (callOpenai (some key) env₁ st prompt).result =
      .ok (formatProviderResponse "openai" (extractMessage body)
            (some (.openaiBody body))) ∧
    callOpenai key₂ env₂ (callOpenai (some key) env₁ st prompt).state prompt₂ =
      ⟨.ok (formatProviderResponse "openai" (extractMessage body)
             (some .cachedFlag)),
       (callOpenai (some key) env₁ st prompt).state, 0, []⟩ := by
  have h1 := callOpenai_outbound_success key env₁ st prompt body hmiss hsucc
  constructor
  · rw [h1]
  · refine callOpenai_hit key₂ env₂ _ prompt₂ env₁.tCacheSet
      (extractMessage body) ?_ (extractMessage_ne_empty body) htime
    rw [h1, hfp]
    simp [cacheSet, cacheInsert, cacheFind]

/-- The gemini analogue of `callOpenai_second_hit`, on the `"gemini"`
cache key. -/
lemma callGemini_second_hit (env₁ env₂ : GeminiEnv) (st : GatewayState)
    (prompt prompt₂ : String) (text : Option String)
    (hmiss : pyTruthy (cacheGet st.cache env₁.tCacheGet "gemini" prompt).1 = false)
    (hsucc : env₁.outcome = .success text)
    (hfp : fingerprint prompt₂ = fingerprint prompt)
    (htime : env₂.tCacheGet - env₁.tCacheSet ≤ RESP_TTL) :
    (callGemini env₁ st prompt).result =
      .ok (formatProviderResponse "gemini" (pyOrStr text "No response.")
            (some .geminiFlag)) ∧
    callGemini env₂ (callGemini env₁ st prompt).state prompt₂ =
      ⟨.ok (formatProviderResponse "gemini" (pyOrStr text "No response.")
             (some .cachedFlag)),
       (callGemini env₁ st prompt).state, 0, []⟩ := by
  have h1 := callGemini_outbound_success env₁ st prompt text hmiss hsucc
  constructor
  · rw [h1]
  · refine callGemini_hit env₂ _ prompt₂ env₁.tCacheSet
      (pyOrStr text "No response.")
      ?_ (pyOrStr_ne_empty text "No response." (by decide)) htime
    rw [h1, hfp]
    simp [cacheSet, cacheInsert, cacheFind]

/-- The tavily analogue of `callOpenai_second_hit`: both calls reroute to
`_call_openai` on the `("openai", fingerprint)` key, and each returned
envelope additionally carries the top-level `"provider": "tavily"`
key. -/
lemma callTavily_second_hit (key : String) (key₂ : Option String)
    (env₁ env₂ : CallEnv) (st : GatewayState) (prompt prompt₂ : String)
    (body : OpenAIBody)
    (hmiss : pyTruthy (cacheGet st.cache env₁.tCacheGet "openai" prompt).1 = false)
    (hsucc : (postJson env₁.retry).result = .ok (some body))
    (hfp : fingerprint prompt₂ = fingerprint prompt)
    (htime : env₂.tCacheGet - env₁.tCacheSet ≤ RESP_TTL) :
    (callTavily (some key) env₁ st prompt).result =
      .ok (setTopProvider "tavily"
            (formatProviderResponse "openai" (extractMessage body)
              (some (.openaiBody body)))) ∧
    callTavily key₂ env₂ (callTavily (some key) env₁ st prompt).state prompt₂ =
      ⟨.ok (setTopProvider "tavily"
             (formatProviderResponse "openai" (extractMessage body)
               (some .cachedFlag))),
       (callTavily (some key) env₁ st prompt).state, 0, []⟩ := by
  obtain ⟨h1, h2⟩ := callOpenai_second_hit key key₂ env₁ env₂ st prompt prompt₂
    body hmiss hsucc hfp htime
  constructor
  · show (callOpenai (some key) env₁ st prompt).result.map
        (setTopProvider "tavily") = _
    rw [h1]
    rfl
  · have hdef : callTavily key₂ env₂
        (callTavily (some key) env₁ st prompt).state prompt₂ =
        { callOpenai key₂ env₂ (callOpenai (some key) env₁ st prompt).state
            prompt₂ with
          result := (callOpenai key₂ env₂
              (callOpenai (some key) env₁ st prompt).state prompt₂).result.map
            (setTopProvider "tavily") } := rfl
    rw [hdef, h2]
    rfl

/-- The envelope of every non-raising `call_selected_provider` result has
`ok = True`, whatever provider string was requested. -/
lemma callSelectedProvider_ok_shape (key : Option String) (envO : CallEnv)
    (envG : GeminiEnv) (st : GatewayState) (provider prompt : String)
    (e : Envelope)
    (h : (callSelectedProvider key envO envG st provider prompt).result = .ok e) :
    e.ok = true := by
  unfold callSelectedProvider at h
  by_cases h1 : provider = "gemini"
  · rw [if_pos h1] at h
    exact callGemini_ok_shape envG st prompt e h
  · rw [if_neg h1] at h
    by_cases h2 : provider = "openai"
    · rw [if_pos h2] at h
      exact (callOpenai_ok_shape key envO st prompt e h).1
    · rw [if_neg h2] at h
      by_cases h3 : provider = "tavily"
      · rw [if_pos h3] at h
        have h' : (callOpenai key envO st prompt).result.map
            (setTopProvider "tavily") = .ok e := h
        rcases hr : (callOpenai key envO st prompt).result with m | e₀
        · rw [hr] at h'
          exact Except.noConfusion h'
        · rw [hr] at h'
          simp only [Except.map, Except.ok.injEq] at h'
          subst h'
          exact (callOpenai_ok_shape key envO st prompt e₀ hr).1
      · rw [if_neg h3] at h
        exact (callOpenai_ok_shape key envO st prompt e h).1

/-- `model_research` always hands back an `ok = True` envelope: every
strategy result does, and the endpoint's blanket `except` converts any
escaping exception into the `ok = True` fallback. -/
lemma modelResearch_ok (key : Option String) (envO : CallEnv)
    (envG : GeminiEnv) (st : GatewayState) (reqProvider : Option String)
    (prompt : String) :
    (modelResearch key envO envG st reqProvider prompt).envelope.ok = true := by
  unfold modelResearch
  rcases hres : (callSelectedProvider key envO envG st
      (pyOrStr reqProvider "openai") prompt).result with msg | e
  · simp only [hres]
  · simp only [hres]
    exact callSelectedProvider_ok_shape key envO envG st _ prompt e hres

/-! ## The claims -/

/-- C1: for every prompt, if every attempted outbound provider call fails
as rate-limited (HTTP 429), the OpenAI strategy still returns, after
`maxRetries` attempts, an `ok = True` envelope whose summary is the fixed
apology string, with the `{"rate_limited": True}` degradation marker; the
result is `.ok`, i.e. no exception propagates to the caller of the
strategy. -/
theorem c1_retry_exhaustion_degraded_success (key : String) (env : CallEnv)
    (st : GatewayState) (prompt : String)
    (hmiss : pyTruthy (cacheGet st.cache env.tCacheGet "openai" prompt).1 = false)
    (h429 : ∀ n, env.retry.outcome n = .httpError 429) :
    (callOpenai (some key) env st prompt).result =
      .ok { ok := true, summary := apologyText, provider := "openai",
            raw := some .rateLimitedFlag } ∧
    (callOpenai (some key) env st prompt).posts = maxRetries := by
  have hsend := sendLoop_all429 env.retry h429 maxRetries 0 rfl (by decide)
  have herr : (postJson env.retry).result = .error (.httpError 429) := by
    rw [postJson, hsend]
  rw [callOpenai_outbound_error key env st prompt _ hmiss herr]
  refine ⟨rfl, ?_⟩
  rw [postJson, hsend]

/-- Witness for C1: a concrete all-429 run. -/
theorem c1_witness :
    (callOpenai (some "sk-test")
        ⟨0, ⟨0, 0⟩, ⟨fun _ => NetOutcome.httpError 429, fun _ => 0⟩, 1⟩
        ⟨[], 0⟩ "p").result =
      .ok { ok := true, summary := apologyText, provider := "openai",
            raw := some .rateLimitedFlag } ∧
    (callOpenai (some "sk-test")
        ⟨0, ⟨0, 0⟩, ⟨fun _ => NetOutcome.httpError 429, fun _ => 0⟩, 1⟩
        ⟨[], 0⟩ "p").posts = maxRetries :=
  c1_retry_exhaustion_degraded_success "sk-test"
    ⟨0, ⟨0, 0⟩, ⟨fun _ => NetOutcome.httpError 429, fun _ => 0⟩, 1⟩
    ⟨[], 0⟩ "p" rfl (fun _ => rfl)

/-- C2: under the lock-serialized model of `_respect_openai_rl`, every
pair of consecutive completed acquisitions is separated by at least
`_RATE_WINDOW_SEC = 4` seconds: each baseline reserved by a completing
acquisition is at least `RATE_WINDOW_SEC` after the previous baseline,
along the whole serialized trace of any number of concurrent callers. -/
theorem c2_rate_limiter_spacing (last : Time) (tr : List AcquireObs)
    (h : ValidTrace last tr) :
    List.Chain (fun a b => a + RATE_WINDOW_SEC ≤ b) last (runAcquires last tr) := by
  induction tr generalizing last with
  | nil => exact List.Chain.nil
  | cons o os ih =>
      rcases h with ⟨hv, hrest⟩
      exact List.Chain.cons (acquire_spacing last o hv) (ih _ hrest)

/-- Witness for C2: a concrete serialized trace of two acquisitions. -/
theorem c2_witness :
    List.Chain (fun a b => a + RATE_WINDOW_SEC ≤ b) 0
      (runAcquires 0 [⟨0, 4⟩, ⟨5, 8⟩]) :=
  c2_rate_limiter_spacing 0 [⟨0, 4⟩, ⟨5, 8⟩]
    (by refine ⟨⟨by norm_num, fun h => ?_⟩, ⟨by norm_num, fun h => ?_⟩, trivial⟩ <;>
          norm_num [rlWait, RATE_WINDOW_SEC, acquireStep] at h ⊢)

/-- Counterexample to C3: the claim asserts a backoff sleep happens only
in the transition `RateLimited and n < maxAttempts`, never on the
exhausting final attempt — so an exhausted run could sleep at most
`maxRetries - 1 = 4` times.  But on the all-429 environment the code
sleeps `wait_time` *before* checking `attempt == max_retries - 1` and
re-raising (main.py lines 204-209): the run issues 5 POSTs and performs
5 backoff sleeps, one of them on the exhausting final attempt. -/
theorem c3_counterexample :
    (postJson ⟨fun _ => NetOutcome.httpError 429, fun _ => 0⟩).result =
        .error (.httpError 429) ∧
    (postJson ⟨fun _ => NetOutcome.httpError 429, fun _ => 0⟩).posts = maxRetries ∧
    (postJson ⟨fun _ => NetOutcome.httpError 429, fun _ => 0⟩).sleeps.length =
        maxRetries :=
  ⟨rfl, rfl, rfl⟩

/-- C3 as amended: for `K < maxRetries`, if the provider returns 429
exactly `K` times and then succeeds, `_post_json` returns the successful
body after exactly `K` retries (`K + 1` POSTs) with exactly `K` backoff
sleeps, the sleep after attempt `n` lasting
`backoff env n = 2 ^ n + env.jitter n` (base delay 1s doubling each
attempt plus the `random.uniform(0, 1.5)` jitter); and a rate-limited
attempt always sleeps — including the exhausting final attempt, which
sleeps and then re-raises, so an exhausted run performs `maxRetries`
sleeps, not `maxRetries - 1`. -/
theorem c3_amended_bounded_retry (env : RetryEnv) (K : Nat) (body : OpenAIBody)
    (hK : K < maxRetries)
    (hpre : ∀ k, k < K → env.outcome k = .httpError 429)
    (hsucc : env.outcome K = .success body) :
    postJson env = ⟨.ok (some body), (List.range K).map (backoff env), K + 1⟩ ∧
    ∀ env' : RetryEnv, (∀ n, env'.outcome n = .httpError 429) →
      (postJson env').sleeps = (List.range maxRetries).map (backoff env') := by
  constructor
  · have h := sendLoop_pre429_success env body K hK hsucc maxRetries 0 rfl
      (Nat.zero_le K) (fun k _ hk => hpre k hk)
    rw [postJson, h, List.range_eq_range']
    simp
  · intro env' h429
    have h := sendLoop_all429 env' h429 maxRetries 0 rfl (by decide)
    rw [postJson, h, List.range_eq_range']

/-- Witness for C3 as amended: two 429s then a success. -/
theorem c3_witness :
    (postJson ⟨fun n => if n < 2 then NetOutcome.httpError 429
                        else NetOutcome.success ⟨some "hi"⟩, fun _ => 0⟩ : SendTrace) =
      ⟨.ok (some ⟨some "hi"⟩),
       (List.range 2).map
         (backoff ⟨fun n => if n < 2 then NetOutcome.httpError 429
                            else NetOutcome.success ⟨some "hi"⟩, fun _ => 0⟩),
       3⟩ ∧
    ∀ env' : RetryEnv, (∀ n, env'.outcome n = .httpError 429) →
      (postJson env').sleeps = (List.range maxRetries).map (backoff env') :=
  c3_amended_bounded_retry
    ⟨fun n => if n < 2 then NetOutcome.httpError 429
              else NetOutcome.success ⟨some "hi"⟩, fun _ => 0⟩
    2 ⟨some "hi"⟩ (by decide) (fun k hk => by interval_cases k <;> rfl) rfl

/-- C4: the retry loop retries only an attempt that failed with HTTP 429;
a failure of any other kind — another HTTP error status, or a
non-HTTP failure (connection error, timeout, malformed body) — raised on
attempt `n` propagates out of `_post_json` from that very attempt: the
result is that error, no further POST is issued (`n + 1` in total), and
no backoff sleep accompanies attempt `n` (the `n` sleeps are exactly
those of the `n` preceding rate-limited attempts). -/
theorem c4_only_429_retried (env : RetryEnv) (n : Nat) (e : SendError)
    (hn : n < maxRetries)
    (hpre : ∀ k, k < n → env.outcome k = .httpError 429)
    (hfail : (∃ s, s ≠ 429 ∧ env.outcome n = .httpError s ∧ e = .httpError s) ∨
             (∃ m, env.outcome n = .netError m ∧ e = .netError m)) :
    postJson env = ⟨.error e, (List.range n).map (backoff env), n + 1⟩ := by
  have hrun : sendLoop env 0 maxRetries =
      ⟨.error e, (List.range' 0 (n - 0)).map (backoff env), n - 0 + 1⟩ := by
    rcases hfail with ⟨s, hs, houtcome, he⟩ | ⟨m, houtcome, he⟩
    · refine sendLoop_pre429_fail env e n hn ?_ ?_ maxRetries 0 rfl
        (Nat.zero_le n) (fun k _ hk => hpre k hk)
      · intro h
        rw [houtcome] at h
        injection h with h'
        exact hs h'
      · rw [houtcome, he]
    · refine sendLoop_pre429_fail env e n hn ?_ ?_ maxRetries 0 rfl
        (Nat.zero_le n) (fun k _ hk => hpre k hk)
      · intro h
        rw [houtcome] at h
        exact NetOutcome.noConfusion h
      · rw [houtcome, he]

  rw [postJson, hrun, List.range_eq_range']
  simp

/-- Witness for C4: two 429s then a connection failure — raised from the
third attempt, two sleeps, three POSTs. -/
theorem c4_witness :
    (postJson ⟨fun n => if n < 2 then NetOutcome.httpError 429
                        else NetOutcome.netError "boom", fun _ => 0⟩ : SendTrace) =
      ⟨.error (.netError "boom"),
       (List.range 2).map
         (backoff ⟨fun n => if n < 2 then NetOutcome.httpError 429
                            else NetOutcome.netError "boom", fun _ => 0⟩),
       3⟩ :=
  c4_only_429_retried
    ⟨fun n => if n < 2 then NetOutcome.httpError 429
              else NetOutcome.netError "boom", fun _ => 0⟩
    2 (.netError "boom") (by decide) (fun k hk => by interval_cases k <;> rfl)
    (Or.inr ⟨"boom", rfl, rfl⟩)

/-- Counterexample to C5: the claim says an entry stored at `t0` is
visible only while `t - t0 < TTL`.  But `_cache_get` treats an entry as
stale only when `now - ts > _RESP_TTL` (strict, main.py line 174): at
exactly `t - t0 = 60` the entry is still returned, although
`t - t0 < TTL` fails. -/
theorem c5_counterexample :
    (cacheGet [(("openai", "p"), (0, "hello"))] 60 "openai" "p").1 =
        some "hello" ∧
    ¬ ((60 : Time) - 0 < RESP_TTL) := by
  have hfp : fingerprint "p" = "p" := by rfl
  constructor
  · norm_num [cacheGet, cacheFind, hfp, RESP_TTL]
  · norm_num [RESP_TTL]

/-- C5 as amended: an entry stored at `t0` is visible to a lookup at `t`
exactly while `t - t0 ≤ TTL` (boundary included): a lookup with
`t - t0 ≤ TTL` returns the stored text and leaves the cache unchanged,
while a lookup with `TTL < t - t0` (in particular at `t0 + TTL + ε` for
any `ε > 0`) returns absent and purges the stale entry as a side
effect. -/
theorem c5_amended_ttl_expiry (c : Cache) (t0 t : Time)
    (provider prompt text : String)
    (hfind : cacheFind c (provider, fingerprint prompt) = some (t0, text)) :
    (t - t0 ≤ RESP_TTL → cacheGet c t provider prompt = (some text, c)) ∧
    (RESP_TTL < t - t0 →
      cacheGet c t provider prompt =
        (none, cacheErase c (provider, fingerprint prompt))) := by
  constructor
  · intro h
    simp only [cacheGet, hfind]
    rw [if_neg (not_lt.mpr h)]
  · intro h
    simp only [cacheGet, hfind]
    rw [if_pos h]

/-- Witness for C5 as amended: a lookup 30 seconds after insertion. -/
theorem c5_witness :
    ((30 : Time) - 0 ≤ RESP_TTL →
      cacheGet [(("openai", "p"), (0, "hello"))] 30 "openai" "p" =
        (some "hello", [(("openai", "p"), (0, "hello"))])) ∧
    (RESP_TTL < (30 : Time) - 0 →
      cacheGet [(("openai", "p"), (0, "hello"))] 30 "openai" "p" =
        (none, cacheErase [(("openai", "p"), (0, "hello"))]
                 ("openai", fingerprint "p"))) :=
  c5_amended_ttl_expiry [(("openai", "p"), (0, "hello"))] 0 30 "openai" "p"
    "hello" (by rfl)

/-- C6: for every (providerId, prompt) pair — `"gemini"` with its own
cache key, `"openai"`, `"tavily"`, and any unknown identifier falling
through to the default openai strategy — a second gateway call through
the dispatcher with the same provider and a prompt of the same
fingerprint, whose cache lookup happens within TTL of the successful
first call's `_cache_set`, returns the first call's summary text in an
envelope carrying the `{"cached": True}` marker, issues zero outbound
network calls, and leaves the state untouched.  The hypotheses make both
oracles (the OpenAI POST and the Gemini `generate_content`) succeed on a
cache-missing first call, so the scenario is stated once for every
provider string at once. -/
theorem c6_idempotent_cache_hit (p : String) (key : String)
    (key₂ : Option String) (envO₁ envO₂ : CallEnv) (envG₁ envG₂ : GeminiEnv)
    (st : GatewayState) (prompt prompt₂ : String) (body : OpenAIBody)
    (text : Option String)
    (hfp : fingerprint prompt₂ = fingerprint prompt)
    (hmissO : pyTruthy (cacheGet st.cache envO₁.tCacheGet "openai" prompt).1 = false)
    (hsuccO : (postJson envO₁.retry).result = .ok (some body))
    (htimeO : envO₂.tCacheGet - envO₁.tCacheSet ≤ RESP_TTL)
    (hmissG : pyTruthy (cacheGet st.cache envG₁.tCacheGet "gemini" prompt).1 = false)
    (hsuccG : envG₁.outcome = .success text)
    (htimeG : envG₂.tCacheGet - envG₁.tCacheSet ≤ RESP_TTL) :
    ∃ e₁ e₂ : Envelope,
      (callSelectedProvider (some key) envO₁ envG₁ st p prompt).result = .ok e₁ ∧
      (callSelectedProvider key₂ envO₂ envG₂
          (callSelectedProvider (some key) envO₁ envG₁ st p prompt).state
          p prompt₂).result = .ok e₂ ∧
      e₂.summary = e₁.summary ∧
      e₂.raw = some .cachedFlag ∧
      (callSelectedProvider key₂ envO₂ envG₂
          (callSelectedProvider (some key) envO₁ envG₁ st p prompt).state
          p prompt₂).posts = 0 ∧
      (callSelectedProvider key₂ envO₂ envG₂
          (callSelectedProvider (some key) envO₁ envG₁ st p prompt).state
          p prompt₂).state =
        (callSelectedProvider (some key) envO₁ envG₁ st p prompt).state := by
  by_cases hp1 : p = "gemini"
  · have hd : ∀ (k : Option String) (eo : CallEnv) (eg : GeminiEnv)
        (s : GatewayState) (pr : String),
        callSelectedProvider k eo eg s p pr = callGemini eg s pr := by
      intro k eo eg s pr
      simp [callSelectedProvider, hp1]
    obtain ⟨h1, h2⟩ := callGemini_second_hit envG₁ envG₂ st prompt prompt₂
      text hmissG hsuccG hfp htimeG
    simp only [hd]
    refine ⟨_, formatProviderResponse "gemini" (pyOrStr text "No response.")
      (some .cachedFlag), h1, ?_, rfl, rfl, ?_, ?_⟩
    · rw [h2]
    · rw [h2]
    · rw [h2]
  · by_cases hp2 : p = "openai"
    · have hd : ∀ (k : Option String) (eo : CallEnv) (eg : GeminiEnv)
          (s : GatewayState) (pr : String),
          callSelectedProvider k eo eg s p pr = callOpenai k eo s pr := by
        intro k eo eg s pr
        simp [callSelectedProvider, hp1, hp2]
      obtain ⟨h1, h2⟩ := callOpenai_second_hit key key₂ envO₁ envO₂ st prompt
        prompt₂ body hmissO hsuccO hfp htimeO
      simp only [hd]
      refine ⟨_, formatProviderResponse "openai" (extractMessage body)
        (some .cachedFlag), h1, ?_, rfl, rfl, ?_, ?_⟩
      · rw [h2]
      · rw [h2]
      · rw [h2]
    · by_cases hp3 : p = "tavily"
      · have hd : ∀ (k : Option String) (eo : CallEnv) (eg : GeminiEnv)
            (s : GatewayState) (pr : String),
            callSelectedProvider k eo eg s p pr = callTavily k eo s pr := by
          intro k eo eg s pr
          simp [callSelectedProvider, hp1, hp2, hp3]
        obtain ⟨h1, h2⟩ := callTavily_second_hit key key₂ envO₁ envO₂ st prompt
          prompt₂ body hmissO hsuccO hfp htimeO
        simp only [hd]
        refine ⟨_, setTopProvider "tavily"
          (formatProviderResponse "openai" (extractMessage body)
            (some .cachedFlag)), h1, ?_, rfl, rfl, ?_, ?_⟩
        · rw [h2]
        · rw [h2]
        · rw [h2]
      · have hd : ∀ (k : Option String) (eo : CallEnv) (eg : GeminiEnv)
            (s : GatewayState) (pr : String),
            callSelectedProvider k eo eg s p pr = callOpenai k eo s pr := by
          intro k eo eg s pr
          simp [callSelectedProvider, hp1, hp2, hp3]
        obtain ⟨h1, h2⟩ := callOpenai_second_hit key key₂ envO₁ envO₂ st prompt
          prompt₂ body hmissO hsuccO hfp htimeO
        simp only [hd]
        refine ⟨_, formatProviderResponse "openai" (extractMessage body)
          (some .cachedFlag), h1, ?_, rfl, rfl, ?_, ?_⟩
        · rw [h2]
        · rw [h2]
        · rw [h2]

/-- Witness for C6: an unknown provider identifier (exercising the
default dispatch), a first call that succeeds with text `"hi"` and a
second call 29 seconds later, run without any key. -/
theorem c6_witness :
    ∃ e₁ e₂ : Envelope,
      (callSelectedProvider (some "sk-test")
          ⟨0, ⟨0, 0⟩, ⟨fun _ => NetOutcome.success ⟨some "hi"⟩, fun _ => 0⟩, 1⟩
          ⟨2, ⟨3, 3⟩, .success (some "g"), 4⟩
          ⟨[], 0⟩ "nonexistent-provider" "p").result = .ok e₁ ∧
      (callSelectedProvider none
          ⟨30, ⟨40, 44⟩, ⟨fun _ => NetOutcome.netError "x", fun _ => 0⟩, 45⟩
          ⟨30, ⟨40, 44⟩, .failure "x", 45⟩
          (callSelectedProvider (some "sk-test")
            ⟨0, ⟨0, 0⟩, ⟨fun _ => NetOutcome.success ⟨some "hi"⟩, fun _ => 0⟩, 1⟩
            ⟨2, ⟨3, 3⟩, .success (some "g"), 4⟩
            ⟨[], 0⟩ "nonexistent-provider" "p").state
          "nonexistent-provider" "p").result = .ok e₂ ∧
      e₂.summary = e₁.summary ∧
      e₂.raw = some .cachedFlag ∧
      (callSelectedProvider none
          ⟨30, ⟨40, 44⟩, ⟨fun _ => NetOutcome.netError "x", fun _ => 0⟩, 45⟩
          ⟨30, ⟨40, 44⟩, .failure "x", 45⟩
          (callSelectedProvider (some "sk-test")
            ⟨0, ⟨0, 0⟩, ⟨fun _ => NetOutcome.success ⟨some "hi"⟩, fun _ => 0⟩, 1⟩
            ⟨2, ⟨3, 3⟩, .success (some "g"), 4⟩
            ⟨[], 0⟩ "nonexistent-provider" "p").state
          "nonexistent-provider" "p").posts = 0 ∧
      (callSelectedProvider none
          ⟨30, ⟨40, 44⟩, ⟨fun _ => NetOutcome.netError "x", fun _ => 0⟩, 45⟩
          ⟨30, ⟨40, 44⟩, .failure "x", 45⟩
          (callSelectedProvider (some "sk-test")
            ⟨0, ⟨0, 0⟩, ⟨fun _ => NetOutcome.success ⟨some "hi"⟩, fun _ => 0⟩, 1⟩
            ⟨2, ⟨3, 3⟩, .success (some "g"), 4⟩
            ⟨[], 0⟩ "nonexistent-provider" "p").state
          "nonexistent-provider" "p").state =
        (callSelectedProvider (some "sk-test")
          ⟨0, ⟨0, 0⟩, ⟨fun _ => NetOutcome.success ⟨some "hi"⟩, fun _ => 0⟩, 1⟩
          ⟨2, ⟨3, 3⟩, .success (some "g"), 4⟩
          ⟨[], 0⟩ "nonexistent-provider" "p").state :=
  c6_idempotent_cache_hit "nonexistent-provider" "sk-test" none
    ⟨0, ⟨0, 0⟩, ⟨fun _ => NetOutcome.success ⟨some "hi"⟩, fun _ => 0⟩, 1⟩
    ⟨30, ⟨40, 44⟩, ⟨fun _ => NetOutcome.netError "x", fun _ => 0⟩, 45⟩
    ⟨2, ⟨3, 3⟩, .success (some "g"), 4⟩
    ⟨30, ⟨40, 44⟩, .failure "x", 45⟩
    ⟨[], 0⟩ "p" "p" ⟨some "hi"⟩ (some "g") rfl rfl rfl
    (by norm_num [RESP_TTL]) rfl rfl (by norm_num [RESP_TTL])

/-- Counterexample to C7: providers are *not* rate-limited independently.
`_call_gemini` awaits the very same `_respect_openai_rl` (main.py line
260), so a completed gemini call writes the single shared
`_last_openai_call` baseline: after the gemini call below completes at
time 100, an openai call entering at time 101 computes the positive wait
`rlWait 100 101 = 3` and cannot complete before 104 — completing
immediately (`⟨101, 101⟩`) is impossible, while completing at 104 is the
earliest valid observation.  The gemini call is counted against, and
delays, openai's spacing. -/
theorem c7_counterexample :
    (callGemini ⟨0, ⟨100, 100⟩, .success (some "g"), 100⟩
        ⟨[], 0⟩ "p").state.lastOpenaiCall = 100 ∧
    ¬ ValidAcquire 100 ⟨101, 101⟩ ∧
    ValidAcquire 100 ⟨101, 104⟩ := by
  refine ⟨rfl, ?_, ?_⟩
  · intro h
    have h2 := h.2 (by norm_num [rlWait, RATE_WINDOW_SEC])
    norm_num [rlWait, RATE_WINDOW_SEC] at h2
  · exact ⟨by norm_num, fun h => by norm_num [rlWait, RATE_WINDOW_SEC]⟩

/-- C7 as amended: all provider strategies share the one rate limiter.
A cache-missing `_call_gemini` reserves the shared `_last_openai_call`
baseline, and every subsequent valid acquisition — in particular the one
an openai call performs — completes no earlier than that gemini baseline
plus `RATE_WINDOW_SEC`: a completed gemini call is counted against, and
can delay, the spacing of openai calls. -/
theorem c7_amended_shared_limiter (envG : GeminiEnv) (st : GatewayState)
    (prompt : String)
    (hmiss : pyTruthy (cacheGet st.cache envG.tCacheGet "gemini" prompt).1 = false)
    (o : AcquireObs)
    (hvalid : ValidAcquire (acquireStep st.lastOpenaiCall envG.acq) o) :
    (callGemini envG st prompt).state.lastOpenaiCall =
      acquireStep st.lastOpenaiCall envG.acq ∧
    (callGemini envG st prompt).state.lastOpenaiCall + RATE_WINDOW_SEC ≤
      acquireStep (callGemini envG st prompt).state.lastOpenaiCall o := by
  have hbase : (callGemini envG st prompt).state.lastOpenaiCall =
      acquireStep st.lastOpenaiCall envG.acq := by
    unfold callGemini
    simp only [hmiss, Bool.false_eq_true, if_false]
    split <;> rfl
  refine ⟨hbase, ?_⟩
  rw [hbase]
  exact acquire_spacing _ o hvalid

/-- Witness for C7 as amended: a gemini call completing at 100 delays an
openai acquisition entering at 101 until 104. -/
theorem c7_witness :
    (callGemini ⟨0, ⟨100, 100⟩, .success (some "g"), 100⟩
        ⟨[], 0⟩ "p").state.lastOpenaiCall = acquireStep 0 ⟨100, 100⟩ ∧
    (callGemini ⟨0, ⟨100, 100⟩, .success (some "g"), 100⟩
        ⟨[], 0⟩ "p").state.lastOpenaiCall + RATE_WINDOW_SEC ≤
      acquireStep ((callGemini ⟨0, ⟨100, 100⟩, .success (some "g"), 100⟩
        ⟨[], 0⟩ "p").state.lastOpenaiCall) ⟨101, 104⟩ :=
  c7_amended_shared_limiter ⟨0, ⟨100, 100⟩, .success (some "g"), 100⟩
    ⟨[], 0⟩ "p" rfl ⟨101, 104⟩
    ⟨by norm_num [acquireStep],
     fun h => by norm_num [rlWait, RATE_WINDOW_SEC, acquireStep]⟩

/-- Counterexample to C8: the claim says the provider field *inside the
envelope's data object* equals `"tavily"`.  But
`result["provider"] = "tavily"` (main.py line 275) writes a *top-level*
key of the outer dict; `data["provider"]` keeps the `"openai"` the
rerouted strategy wrote (main.py line 216).  In the successful tavily
call below the data object's provider field is `"openai"`, not
`"tavily"`. -/
theorem c8_counterexample :
    (callTavily (some "sk-test")
        ⟨0, ⟨0, 0⟩, ⟨fun _ => NetOutcome.success ⟨some "hi"⟩, fun _ => 0⟩, 1⟩
        ⟨[], 0⟩ "p").result =
      .ok { ok := true, summary := "hi", provider := "openai",
            raw := some (.openaiBody ⟨some "hi"⟩),
            topProvider := some "tavily" } ∧
    ¬ ("openai" = "tavily") := by
  constructor
  · rfl
  · decide

/-- C8 as amended: a tavily request that returns an envelope carries the
requested identifier only as the added *top-level* `"provider"` key; the
provider field inside the envelope's data object remains `"openai"`, the
identifier of the strategy it rerouted to. -/
theorem c8_amended_top_level_provider (key : Option String) (env : CallEnv)
    (st : GatewayState) (prompt : String) (e : Envelope)
    (h : (callTavily key env st prompt).result = .ok e) :
    e.topProvider = some "tavily" ∧ e.provider = "openai" := by
  have h' : (callOpenai key env st prompt).result.map
      (setTopProvider "tavily") = .ok e := h
  rcases hr : (callOpenai key env st prompt).result with m | e₀
  · rw [hr] at h'
    exact Except.noConfusion h'
  · rw [hr] at h'
    simp only [Except.map, Except.ok.injEq] at h'
    subst h'
    exact ⟨rfl, (callOpenai_ok_shape key env st prompt e₀ hr).2.1⟩

/-- Witness for C8 as amended: the concrete successful tavily call. -/
theorem c8_witness :
    (Envelope.topProvider
        { ok := true, summary := "hi", provider := "openai",
          raw := some (.openaiBody ⟨some "hi"⟩),
          topProvider := some "tavily" } = some "tavily") ∧
    Envelope.provider
        { ok := true, summary := "hi", provider := "openai",
          raw := some (.openaiBody ⟨some "hi"⟩),
          topProvider := some "tavily" } = "openai" :=
  c8_amended_top_level_provider (some "sk-test")
    ⟨0, ⟨0, 0⟩, ⟨fun _ => NetOutcome.success ⟨some "hi"⟩, fun _ => 0⟩, 1⟩
    ⟨[], 0⟩ "p" _ rfl

/-- C9: with `OPENAI_API_KEY = None` and a cache miss, the
`AttributeError` raised while building the headers escapes the strategy,
but `model_research`'s blanket `except` converts it into a degraded
success envelope: `ok = True` with the explanatory
`"Error calling openai: ..."` summary.  Moreover the endpoint returns an
`ok = True` envelope for every key and requested provider — a missing
credential never surfaces to the caller as an escaping exception or a
non-success response. -/
theorem c9_missing_credential_degraded (envO : CallEnv) (envG : GeminiEnv)
    (st : GatewayState) (prompt : String)
    (hmiss : pyTruthy (cacheGet st.cache envO.tCacheGet "openai" prompt).1 = false) :
    (modelResearch none envO envG st (some "openai") prompt).envelope =
      { ok := true,
        summary := "Error calling openai: " ++ attributeErrorMsg,
        provider := "openai", raw := none } ∧
    ∀ (key reqProvider : Option String),
      (modelResearch key envO envG st reqProvider prompt).envelope.ok = true := by
  constructor
  · have hcall : (callOpenai none envO st prompt).result =
        .error attributeErrorMsg := by
      unfold callOpenai
      simp only [hmiss, Bool.false_eq_true, if_false]
    simp [modelResearch, callSelectedProvider, pyOrStr, hcall, attributeErrorMsg]
  · intro key rp
    exact modelResearch_ok key envO envG st rp prompt

/-- Witness for C9: a concrete keyless request. -/
theorem c9_witness :
    (modelResearch none
        ⟨0, ⟨0, 0⟩, ⟨fun _ => NetOutcome.netError "x", fun _ => 0⟩, 1⟩
        ⟨0, ⟨0, 0⟩, .failure "x", 1⟩
        ⟨[], 0⟩ (some "openai") "p").envelope =
      { ok := true,
        summary := "Error calling openai: " ++ attributeErrorMsg,
        provider := "openai", raw := none } ∧
    ∀ (key reqProvider : Option String),
      (modelResearch key
          ⟨0, ⟨0, 0⟩, ⟨fun _ => NetOutcome.netError "x", fun _ => 0⟩, 1⟩
          ⟨0, ⟨0, 0⟩, .failure "x", 1⟩
          ⟨[], 0⟩ reqProvider "p").envelope.ok = true :=
  c9_missing_credential_degraded
    ⟨0, ⟨0, 0⟩, ⟨fun _ => NetOutcome.netError "x", fun _ => 0⟩, 1⟩
    ⟨0, ⟨0, 0⟩, .failure "x", 1⟩ ⟨[], 0⟩ "p" rfl

/-- C10: `_call_tavily` *is* `_call_openai` operating on the shared
`("openai", fingerprint)` cache key, differing only by the top-level
`"provider": "tavily"` key added to the returned dict: (i) for every
input the tavily strategy returns exactly the openai strategy's result
with the top-level field mapped in, same state, same outbound calls, same
sleeps; (ii) a tavily request whose lookup falls within TTL of a
successful openai request with the same fingerprint is served the text
the openai call cached, with no outbound call; (iii) a successful tavily
call populates the `("openai", fingerprint)` cache entry. -/
theorem c10_tavily_is_openai_with_shared_cache (key : String)
    (key₂ : Option String) (env₁ env₂ : CallEnv) (st : GatewayState)
    (prompt prompt₂ : String) (body : OpenAIBody)
    (hmiss : pyTruthy (cacheGet st.cache env₁.tCacheGet "openai" prompt).1 = false)
    (hsucc : (postJson env₁.retry).result = .ok (some body))
    (hfp : fingerprint prompt₂ = fingerprint prompt)
    (htime : env₂.tCacheGet - env₁.tCacheSet ≤ RESP_TTL) :
    (∀ (k : Option String) (env : CallEnv) (s : GatewayState) (p : String),
      callTavily k env s p =
        { callOpenai k env s p with
          result := (callOpenai k env s p).result.map (setTopProvider "tavily") }) ∧
    callTavily key₂ env₂ (callOpenai (some key) env₁ st prompt).state prompt₂ =
      ⟨.ok (setTopProvider "tavily"
             (formatProviderResponse "openai" (extractMessage body)
               (some .cachedFlag))),
       (callOpenai (some key) env₁ st prompt).state, 0, []⟩ ∧
    cacheFind (callTavily (some key) env₁ st prompt).state.cache
        ("openai", fingerprint prompt) =
      some (env₁.tCacheSet, extractMessage body) := by
  have h1 := callOpenai_outbound_success key env₁ st prompt body hmiss hsucc
  have hfind : cacheFind (callOpenai (some key) env₁ st prompt).state.cache
      ("openai", fingerprint prompt₂) =
      some (env₁.tCacheSet, extractMessage body) := by
    rw [h1, hfp]
    simp [cacheSet, cacheInsert, cacheFind]
  have h2 := callOpenai_hit key₂ env₂ _ prompt₂ env₁.tCacheSet
    (extractMessage body) hfind (extractMessage_ne_empty body) htime
  refine ⟨fun k env s p => rfl, ?_, ?_⟩
  · have hdef : callTavily key₂ env₂
        (callOpenai (some key) env₁ st prompt).state prompt₂ =
        { callOpenai key₂ env₂ (callOpenai (some key) env₁ st prompt).state
            prompt₂ with
          result := (callOpenai key₂ env₂
              (callOpenai (some key) env₁ st prompt).state prompt₂).result.map
            (setTopProvider "tavily") } := rfl
    rw [hdef, h2]
    rfl
  · show cacheFind (callOpenai (some key) env₁ st prompt).state.cache
        ("openai", fingerprint prompt) =
      some (env₁.tCacheSet, extractMessage body)
    rw [h1]
    simp [cacheSet, cacheInsert, cacheFind]

/-- Witness for C10: an openai call caching `"hi"` served to a keyless
tavily call 29 seconds later. -/
theorem c10_witness :
    (∀ (k : Option String) (env : CallEnv) (s : GatewayState) (p : String),
      callTavily k env s p =
        { callOpenai k env s p with
          result := (callOpenai k env s p).result.map (setTopProvider "tavily") }) ∧
    callTavily none ⟨30, ⟨40, 44⟩, ⟨fun _ => NetOutcome.netError "x", fun _ => 0⟩, 45⟩
        (callOpenai (some "sk-test")
          ⟨0, ⟨0, 0⟩, ⟨fun _ => NetOutcome.success ⟨some "hi"⟩, fun _ => 0⟩, 1⟩
          ⟨[], 0⟩ "p").state "p" =
      ⟨.ok (setTopProvider "tavily"
             (formatProviderResponse "openai" (extractMessage ⟨some "hi"⟩)
               (some .cachedFlag))),
       (callOpenai (some "sk-test")
         ⟨0, ⟨0, 0⟩, ⟨fun _ => NetOutcome.success ⟨some "hi"⟩, fun _ => 0⟩, 1⟩
         ⟨[], 0⟩ "p").state, 0, []⟩ ∧
    cacheFind (callTavily (some "sk-test")
        ⟨0, ⟨0, 0⟩, ⟨fun _ => NetOutcome.success ⟨some "hi"⟩, fun _ => 0⟩, 1⟩
        ⟨[], 0⟩ "p").state.cache ("openai", fingerprint "p") =
      some (1, extractMessage ⟨some "hi"⟩) :=
  c10_tavily_is_openai_with_shared_cache "sk-test" none
    ⟨0, ⟨0, 0⟩, ⟨fun _ => NetOutcome.success ⟨some "hi"⟩, fun _ => 0⟩, 1⟩
    ⟨30, ⟨40, 44⟩, ⟨fun _ => NetOutcome.netError "x", fun _ => 0⟩, 45⟩
    ⟨[], 0⟩ "p" "p" ⟨some "hi"⟩ rfl rfl rfl (by norm_num [RESP_TTL])

end AeroGateway
